import Mathlib

/-!
# RealityLib — verification of the frame/input core

A shallow embedding, in Lean 4, of the parts of the RealityLib VR runtime
(`realitylib_vr.c`, hand-tracking module) that the specification's claims
are about:

* math helpers and view-matrix construction (`CreateViewMatrix`),
* the deferred draw-command recorder and per-eye replayer
  (`AddDrawCommand`, `RenderEye`, `BeginVRMode`, `EndVRMode`, the drawing
  primitives),
* the input synchronizer (`UpdateInput`) and event pump
  (`PollXREvents`, `AppShouldClose`),
* start-up resource acquisition and teardown (`InitApp`),
* hand-gesture derivation (`DetectGestures`).

Modelling conventions:

* C `float` arithmetic is idealised as exact arithmetic: `ℚ` where the
  source only adds/multiplies/divides, `ℝ` where the source takes square
  roots (hand-joint distances).  Calls to `cosf`/`sinf`/`tanf` are
  abstracted by passing the cosine/sine/tangent values themselves as
  arguments.
* The process-global `VRState` struct is made explicit: every function
  that mutates it takes it and returns the updated copy, and the values
  the OpenXR/Android runtime feeds into a call (event buffers, space
  locations, action states, frame timing) are extra arguments.
* OpenXR/EGL handles are modelled as abstract resources; creating one
  appends it to the list of live resources, destroying removes it
  (destroying an `XrInstance` destroys its child handles, as the OpenXR
  specification prescribes).
-/

namespace RealityLib

/-- The `Vector3` from `realitylib_vr.h`, over an arbitrary scalar type
(instantiated at `ℚ` for the exact core, `ℝ` where distances occur). -/
@[ext]
structure Vector3 (α : Type) where
  x : α
  y : α
  z : α
  deriving DecidableEq, Repr

/-- The `Quaternion` from `realitylib_vr.h` (x, y, z, w). -/
@[ext]
structure Quaternion (α : Type) where
  x : α
  y : α
  z : α
  w : α
  deriving DecidableEq, Repr

/-- The `Matrix` from `realitylib_vr.h`: 16 floats, declared (and hence
brace-initialised) in the order m0, m4, m8, m12, m1, m5, m9, m13, m2,
m6, m10, m14, m3, m7, m11, m15. -/
@[ext]
structure Matrix where
  m0 : ℚ
  m4 : ℚ
  m8 : ℚ
  m12 : ℚ
  m1 : ℚ
  m5 : ℚ
  m9 : ℚ
  m13 : ℚ
  m2 : ℚ
  m6 : ℚ
  m10 : ℚ
  m14 : ℚ
  m3 : ℚ
  m7 : ℚ
  m11 : ℚ
  m15 : ℚ
  deriving DecidableEq, Repr

/-- The `Color` from `realitylib_vr.h` (unsigned char r, g, b, a). -/
structure Color where
  r : ℕ
  g : ℕ
  b : ℕ
  a : ℕ
  deriving DecidableEq, Repr

/-- The `XrPosef`: an orientation quaternion and a position, as delivered by
the runtime (stage-relative). -/
structure Posef where
  orientation : Quaternion ℚ
  position : Vector3 ℚ
  deriving DecidableEq, Repr

/-- The `GRAY` from `realitylib_vr.h`. -/
def GRAY : Color := ⟨130, 130, 130, 255⟩

/-- The `RED` from `realitylib_vr.h`. -/
def RED : Color := ⟨230, 41, 55, 255⟩

/-- The `GREEN` from `realitylib_vr.h`. -/
def GREEN : Color := ⟨0, 228, 48, 255⟩

/-- The `BLUE` from `realitylib_vr.h`. -/
def BLUE : Color := ⟨0, 121, 241, 255⟩

/-- The `Vector3Add` from `realitylib_vr.c`. -/
def Vector3Add (v1 v2 : Vector3 ℚ) : Vector3 ℚ :=
  ⟨v1.x + v2.x, v1.y + v2.y, v1.z + v2.z⟩

/-- The `MatrixIdentity` from `realitylib_vr.c`. -/
def MatrixIdentity : Matrix :=
  { m0 := 1, m4 := 0, m8 := 0, m12 := 0
    m1 := 0, m5 := 1, m9 := 0, m13 := 0
    m2 := 0, m6 := 0, m10 := 1, m14 := 0
    m3 := 0, m7 := 0, m11 := 0, m15 := 1 }

/-- The all-zero matrix (`Matrix m = {0}` / zero-initialised globals). -/
def MatrixZero : Matrix :=
  { m0 := 0, m4 := 0, m8 := 0, m12 := 0
    m1 := 0, m5 := 0, m9 := 0, m13 := 0
    m2 := 0, m6 := 0, m10 := 0, m14 := 0
    m3 := 0, m7 := 0, m11 := 0, m15 := 0 }

/-- The `MatrixMultiply` from `realitylib_vr.c`, field for field. -/
def MatrixMultiply (left right : Matrix) : Matrix where
  m0 := left.m0*right.m0 + left.m1*right.m4 + left.m2*right.m8 + left.m3*right.m12
  m1 := left.m0*right.m1 + left.m1*right.m5 + left.m2*right.m9 + left.m3*right.m13
  m2 := left.m0*right.m2 + left.m1*right.m6 + left.m2*right.m10 + left.m3*right.m14
  m3 := left.m0*right.m3 + left.m1*right.m7 + left.m2*right.m11 + left.m3*right.m15
  m4 := left.m4*right.m0 + left.m5*right.m4 + left.m6*right.m8 + left.m7*right.m12
  m5 := left.m4*right.m1 + left.m5*right.m5 + left.m6*right.m9 + left.m7*right.m13
  m6 := left.m4*right.m2 + left.m5*right.m6 + left.m6*right.m10 + left.m7*right.m14
  m7 := left.m4*right.m3 + left.m5*right.m7 + left.m6*right.m11 + left.m7*right.m15
  m8 := left.m8*right.m0 + left.m9*right.m4 + left.m10*right.m8 + left.m11*right.m12
  m9 := left.m8*right.m1 + left.m9*right.m5 + left.m10*right.m9 + left.m11*right.m13
  m10 := left.m8*right.m2 + left.m9*right.m6 + left.m10*right.m10 + left.m11*right.m14
  m11 := left.m8*right.m3 + left.m9*right.m7 + left.m10*right.m11 + left.m11*right.m15
  m12 := left.m12*right.m0 + left.m13*right.m4 + left.m14*right.m8 + left.m15*right.m12
  m13 := left.m12*right.m1 + left.m13*right.m5 + left.m14*right.m9 + left.m15*right.m13
  m14 := left.m12*right.m2 + left.m13*right.m6 + left.m14*right.m10 + left.m15*right.m14
  m15 := left.m12*right.m3 + left.m13*right.m7 + left.m14*right.m11 + left.m15*right.m15

/-- The `QuaternionToMatrix` from `realitylib_vr.c`: starts from the identity
and overwrites the nine rotation entries. -/
def QuaternionToMatrix (q : Quaternion ℚ) : Matrix :=
  let xx := q.x * q.x
  let yy := q.y * q.y
  let zz := q.z * q.z
  let xy := q.x * q.y
  let xz := q.x * q.z
  let yz := q.y * q.z
  let wx := q.w * q.x
  let wy := q.w * q.y
  let wz := q.w * q.z
  { MatrixIdentity with
    m0 := 1 - 2 * (yy + zz), m1 := 2 * (xy + wz), m2 := 2 * (xz - wy)
    m4 := 2 * (xy - wz), m5 := 1 - 2 * (xx + zz), m6 := 2 * (yz + wx)
    m8 := 2 * (xz + wy), m9 := 2 * (yz - wx), m10 := 1 - 2 * (xx + yy) }

/-- The `CreateRotationY` from `realitylib_vr.c`.  The C function receives an
angle and evaluates `cosf`/`sinf` on it; here the cosine `c` and sine `s`
of that angle are passed directly (exact idealisation of the float trig
calls).  Entry layout follows the brace initialiser, whose values run in
field-declaration order m0, m4, m8, m12, m1, …. -/
def CreateRotationY (c s : ℚ) : Matrix :=
  { m0 := c, m4 := 0, m8 := s, m12 := 0
    m1 := 0, m5 := 1, m9 := 0, m13 := 0
    m2 := -s, m6 := 0, m10 := c, m14 := 0
    m3 := 0, m7 := 0, m11 := 0, m15 := 1 }

/-- The `CreateProjectionMatrix` from `realitylib_vr.c`.  The C function
receives an `XrFovf` of four angles and evaluates `tanf` on each; here
the four tangents are passed directly. -/
def CreateProjectionMatrix (tanLeft tanRight tanUp tanDown nearZ farZ : ℚ) : Matrix :=
  let tanWidth := tanRight - tanLeft
  let tanHeight := tanUp - tanDown
  { MatrixZero with
    m0 := 2 / tanWidth
    m5 := 2 / tanHeight
    m8 := (tanRight + tanLeft) / tanWidth
    m9 := (tanUp + tanDown) / tanHeight
    m10 := -(farZ + nearZ) / (farZ - nearZ)
    m11 := -1
    m14 := -(2 * farZ * nearZ) / (farZ - nearZ) }

/-- The rotation of the raw headset position by the player yaw, inlined in
`CreateViewMatrix` (realitylib_vr.c lines 380–387).  `c`/`s` are the cosine
and sine of the player yaw angle in radians. -/
def RotateByPlayerYaw (c s : ℚ) (headsetPos : Vector3 ℚ) : Vector3 ℚ :=
  ⟨headsetPos.x * c - headsetPos.z * s,
   headsetPos.y,
   headsetPos.x * s + headsetPos.z * c⟩

/-- The `CreateViewMatrix` from `realitylib_vr.c` (lines 368–414).  `cosYaw`
and `sinYaw` are the cosine and sine of `vrState.playerYaw * PI / 180`;
the C code calls `CreateRotationY(-playerYawRad)`, i.e. the rotation
matrix of cosine `cosYaw` and sine `-sinYaw`. -/
def CreateViewMatrix (cosYaw sinYaw : ℚ) (playerPosition : Vector3 ℚ) (pose : Posef) : Matrix :=
  let q : Quaternion ℚ :=
    ⟨-pose.orientation.x, -pose.orientation.y, -pose.orientation.z, pose.orientation.w⟩
  let headsetRot := QuaternionToMatrix q
  let headsetPos := pose.position
  let rotatedHeadsetPos := RotateByPlayerYaw cosYaw sinYaw headsetPos
  let finalPos : Vector3 ℚ :=
    ⟨-(rotatedHeadsetPos.x + playerPosition.x),
     -(rotatedHeadsetPos.y + playerPosition.y),
     -(rotatedHeadsetPos.z + playerPosition.z)⟩
  let playerYawMatrix := CreateRotationY cosYaw (-sinYaw)
  let combinedRot := MatrixMultiply headsetRot playerYawMatrix
  let transformedPos : Vector3 ℚ :=
    ⟨combinedRot.m0 * finalPos.x + combinedRot.m4 * finalPos.y + combinedRot.m8 * finalPos.z,
     combinedRot.m1 * finalPos.x + combinedRot.m5 * finalPos.y + combinedRot.m9 * finalPos.z,
     combinedRot.m2 * finalPos.x + combinedRot.m6 * finalPos.y + combinedRot.m10 * finalPos.z⟩
  { combinedRot with m12 := transformedPos.x, m13 := transformedPos.y, m14 := transformedPos.z }

/-- How a recorded matrix acts on a world-space point in the render
pipeline.  The vertex shader computes `uMVP * vec4(p, 1)` and the matrix
is uploaded column-major as `[m0,m1,m2,m3, m4,…]` without transposition,
so output component `i` is `Σ_j m(4j+i)·p_j + m(12+i)`; this gives the
first three components (the fourth row m3,m7,m11,m15 of every view matrix
built by the code is (0,0,0,1), so the w component stays 1). -/
def applyToPoint (m : Matrix) (p : Vector3 ℚ) : Vector3 ℚ :=
  ⟨p.x * m.m0 + p.y * m.m4 + p.z * m.m8 + m.m12,
   p.x * m.m1 + p.y * m.m5 + p.z * m.m9 + m.m13,
   p.x * m.m2 + p.y * m.m6 + p.z * m.m10 + m.m14⟩

/-! ## Deferred draw-command recorder (realitylib_vr.c lines 118–151) -/

/-- The `DrawCommandType` from `realitylib_vr.c`. -/
inductive DrawCommandType where
  | CMD_DRAW_CUBE
  | CMD_DRAW_LINE
  deriving DecidableEq, Repr

/-- The `DrawCommand` from `realitylib_vr.c`: for lines, `size` is repurposed
as the end position. -/
structure DrawCommand where
  type : DrawCommandType
  position : Vector3 ℚ
  size : Vector3 ℚ
  color : Vector3 ℚ
  deriving DecidableEq, Repr

/-- The `MAX_DRAW_COMMANDS` from `realitylib_vr.c`. -/
def MAX_DRAW_COMMANDS : ℕ := 4096

/-- The `AddDrawCommand` from `realitylib_vr.c` (lines 142–151): the global
array `drawCommands[MAX_DRAW_COMMANDS]` together with `drawCommandCount`
is modelled as a list; the store happens only when
`drawCommandCount < MAX_DRAW_COMMANDS` (the remaining statements only log). -/
def AddDrawCommand (cmds : List DrawCommand) (cmd : DrawCommand) : List DrawCommand :=
  if cmds.length < MAX_DRAW_COMMANDS then cmds ++ [cmd] else cmds

/-- The `ClearDrawCommands` from `realitylib_vr.c` (`drawCommandCount = 0`). -/
def ClearDrawCommands : List DrawCommand := []

/-! ## Global state (`VRState`, realitylib_vr.c lines 37–108) -/

/-- The `XrSessionState` values acted on by `PollXREvents`. -/
inductive SessionState where
  | XR_SESSION_STATE_UNKNOWN
  | XR_SESSION_STATE_IDLE
  | XR_SESSION_STATE_READY
  | XR_SESSION_STATE_SYNCHRONIZED
  | XR_SESSION_STATE_VISIBLE
  | XR_SESSION_STATE_FOCUSED
  | XR_SESSION_STATE_STOPPING
  | XR_SESSION_STATE_LOSS_PENDING
  | XR_SESSION_STATE_EXITING
  deriving DecidableEq, Repr

/-- The `VRController` from `realitylib_vr.h`.  Defaults model the
zero-initialised global state. -/
structure VRController where
  position : Vector3 ℚ := ⟨0, 0, 0⟩
  orientation : Quaternion ℚ := ⟨0, 0, 0, 0⟩
  velocity : Vector3 ℚ := ⟨0, 0, 0⟩
  angularVelocity : Vector3 ℚ := ⟨0, 0, 0⟩
  trigger : ℚ := 0
  grip : ℚ := 0
  thumbstickX : ℚ := 0
  thumbstickY : ℚ := 0
  thumbstickClick : Bool := false
  buttonA : Bool := false
  buttonB : Bool := false
  menuButton : Bool := false
  isTracking : Bool := false
  deriving DecidableEq, Repr

/-- The `VRHeadset` from `realitylib_vr.h`. -/
structure VRHeadset where
  position : Vector3 ℚ := ⟨0, 0, 0⟩
  orientation : Quaternion ℚ := ⟨0, 0, 0, 0⟩
  velocity : Vector3 ℚ := ⟨0, 0, 0⟩
  angularVelocity : Vector3 ℚ := ⟨0, 0, 0⟩
  leftEyeProjection : Matrix := MatrixZero
  rightEyeProjection : Matrix := MatrixZero
  leftEyeView : Matrix := MatrixZero
  rightEyeView : Matrix := MatrixZero
  leftEyePosition : Vector3 ℚ := ⟨0, 0, 0⟩
  rightEyePosition : Vector3 ℚ := ⟨0, 0, 0⟩
  displayWidth : ℤ := 0
  displayHeight : ℤ := 0
  displayRefreshRate : ℚ := 0
  deriving DecidableEq, Repr

/-- The mutable global `VRState` of `realitylib_vr.c` (plus the
draw-command buffer, which in C sits in adjacent globals).  OS/graphics
handles (EGL, instance, session, spaces, actions, swapchains) are treated
in the separate resource model for initialization.  The player yaw enters
computation only through `cosf`/`sinf` of its radian value, so those two
values are stored.  Defaults model `static VRState vrState = {0}`. -/
structure VRState where
  sessionRunning : Bool := false
  sessionFocused : Bool := false
  shouldExit : Bool := false
  sessionState : SessionState := .XR_SESSION_STATE_UNKNOWN
  predictedDisplayTime : ℤ := 0
  controllers : Fin 2 → VRController := fun _ => {}
  headset : VRHeadset := {}
  clearColor : Color := ⟨0, 0, 0, 0⟩
  currentEye : ℤ := 0
  currentViewMatrix : Matrix := MatrixZero
  currentProjectionMatrix : Matrix := MatrixZero
  playerPosition : Vector3 ℚ := ⟨0, 0, 0⟩
  playerCosYaw : ℚ := 1
  playerSinYaw : ℚ := 0
  initialized : Bool := false
  viewCount : ℕ := 0
  viewConfigWidth : Fin 2 → ℤ := fun _ => 0
  viewConfigHeight : Fin 2 → ℤ := fun _ => 0
  drawCommands : List DrawCommand := []

/-! ## Event pump (realitylib_vr.c lines 955–1018, 1207–1225) -/

/-- One drained `XrEventDataBuffer`, reduced to the cases the switch in
`PollXREvents` distinguishes. -/
inductive XrEventData where
  | sessionStateChanged (state : SessionState)
  | instanceLossPending
  | otherEvent
  deriving DecidableEq, Repr

/-- The switch body of `PollXREvents` for one event: records the new
session state, then performs the per-state side effects (begin/end
session, exit flag, focus flag). -/
def handleEvent (s : VRState) (e : XrEventData) : VRState :=
  match e with
  | .sessionStateChanged st =>
    let s1 := { s with sessionState := st }
    match st with
    | .XR_SESSION_STATE_READY => { s1 with sessionRunning := true }
    | .XR_SESSION_STATE_STOPPING => { s1 with sessionRunning := false }
    | .XR_SESSION_STATE_EXITING => { s1 with shouldExit := true }
    | .XR_SESSION_STATE_LOSS_PENDING => { s1 with shouldExit := true }
    | .XR_SESSION_STATE_FOCUSED => { s1 with sessionFocused := true }
    | .XR_SESSION_STATE_VISIBLE => { s1 with sessionFocused := false }
    | _ => s1
  | .instanceLossPending => { s with shouldExit := true }
  | .otherEvent => s

/-- The `PollXREvents` from `realitylib_vr.c`: drains all pending events
(passed as the list the runtime would deliver) through `handleEvent`. -/
def PollXREvents (s : VRState) (events : List XrEventData) : VRState :=
  events.foldl handleEvent s

/-- Does an event report a terminal condition (session exiting or loss
pending, or instance loss)? -/
def isTerminalEvent : XrEventData → Bool
  | .sessionStateChanged .XR_SESSION_STATE_EXITING => true
  | .sessionStateChanged .XR_SESSION_STATE_LOSS_PENDING => true
  | .instanceLossPending => true
  | _ => false

/-- The `AppShouldClose` from `realitylib_vr.c` (lines 1207–1225): processes
the pending Android events (whose only modelled effect is
`app->destroyRequested` setting the exit flag), then drains the XR event
queue, then returns `vrState.shouldExit`. -/
def AppShouldClose (s : VRState) (destroyRequested : Bool) (events : List XrEventData) :
    Bool × VRState :=
  let s1 := if destroyRequested then { s with shouldExit := true } else s
  let s2 := PollXREvents s1 events
  (s2.shouldExit, s2)

/-! ## Input synchronizer (realitylib_vr.c lines 1020–1157) -/

/-- The `XR_SPACE_LOCATION_POSITION_VALID_BIT` (OpenXR: 0x2). -/
def XR_SPACE_LOCATION_POSITION_VALID_BIT : ℕ := 2

/-- The `XR_SPACE_VELOCITY_LINEAR_VALID_BIT` (OpenXR: 0x1). -/
def XR_SPACE_VELOCITY_LINEAR_VALID_BIT : ℕ := 1

/-- The `XR_SPACE_VELOCITY_ANGULAR_VALID_BIT` (OpenXR: 0x2). -/
def XR_SPACE_VELOCITY_ANGULAR_VALID_BIT : ℕ := 2

/-- An `XrSpaceLocation` as filled in by `xrLocateSpace`. -/
structure SpaceLocation where
  locationFlags : ℕ
  pose : Posef
  deriving DecidableEq, Repr

/-- An `XrSpaceVelocity` as filled in by `xrLocateSpace`. -/
structure SpaceVelocity where
  velocityFlags : ℕ := 0
  linearVelocity : Vector3 ℚ := ⟨0, 0, 0⟩
  angularVelocity : Vector3 ℚ := ⟨0, 0, 0⟩
  deriving DecidableEq, Repr

/-- The per-hand action-state query results (`xrGetActionStateFloat`,
`xrGetActionStateVector2f`, `xrGetActionStateBoolean`). -/
structure ActionSample where
  trigger : ℚ := 0
  grip : ℚ := 0
  thumbstickX : ℚ := 0
  thumbstickY : ℚ := 0
  thumbstickClick : Bool := false
  buttonA : Bool := false
  buttonB : Bool := false
  deriving DecidableEq, Repr

/-- Everything the runtime feeds into one `UpdateInput` call. -/
structure InputFrame where
  locations : Fin 2 → SpaceLocation
  velocities : Fin 2 → SpaceVelocity := fun _ => {}
  actions : Fin 2 → ActionSample := fun _ => {}
  menuPressed : Bool := false
  headPose : Posef := ⟨⟨0, 0, 0, 0⟩, ⟨0, 0, 0⟩⟩

/-- The per-hand body of the loop in `UpdateInput` (realitylib_vr.c lines
1042–1126): pose/orientation/`isTracking` only when the position-valid
flag is set (otherwise just `isTracking = false`), velocities under their
own flags, action states unconditionally. -/
def updateController (prev : VRController) (loc : SpaceLocation) (vel : SpaceVelocity)
    (act : ActionSample) : VRController :=
  let c1 :=
    if loc.locationFlags &&& XR_SPACE_LOCATION_POSITION_VALID_BIT ≠ 0 then
      { prev with
        position := loc.pose.position
        orientation := loc.pose.orientation
        isTracking := true }
    else
      { prev with isTracking := false }
  let c2 :=
    if vel.velocityFlags &&& XR_SPACE_VELOCITY_LINEAR_VALID_BIT ≠ 0 then
      { c1 with velocity := vel.linearVelocity }
    else c1
  let c3 :=
    if vel.velocityFlags &&& XR_SPACE_VELOCITY_ANGULAR_VALID_BIT ≠ 0 then
      { c2 with angularVelocity := vel.angularVelocity }
    else c2
  { c3 with
    trigger := act.trigger
    grip := act.grip
    thumbstickX := act.thumbstickX
    thumbstickY := act.thumbstickY
    thumbstickClick := act.thumbstickClick
    buttonA := act.buttonA
    buttonB := act.buttonB }

/-- The `UpdateInput` from `realitylib_vr.c` (lines 1020–1157): a no-op unless
the session is running; otherwise syncs actions, updates both controllers,
sets the menu button on controller 0, and overwrites the headset pose from
the head-space locate (whose flags the code does not check). -/
def UpdateInput (s : VRState) (input : InputFrame) : VRState :=
  if !s.sessionRunning then s
  else
    let updated : Fin 2 → VRController := fun i =>
      updateController (s.controllers i) (input.locations i) (input.velocities i)
        (input.actions i)
    let withMenu : Fin 2 → VRController := fun i =>
      if i = 0 then { updated 0 with menuButton := input.menuPressed } else updated i
    { s with
      controllers := withMenu
      headset := { s.headset with
        position := input.headPose.position
        orientation := input.headPose.orientation } }

/-! ## Frame bracket and per-eye replay (realitylib_vr.c lines 1227–1378, 1609–1650) -/

/-- One located view from `xrLocateViews`: its pose and the four FOV
half-angle tangents (the C code applies `tanf` to the angles inside
`CreateProjectionMatrix`). -/
structure ViewInput where
  pose : Posef := ⟨⟨0, 0, 0, 0⟩, ⟨0, 0, 0⟩⟩
  tanAngleLeft : ℚ := 0
  tanAngleRight : ℚ := 0
  tanAngleUp : ℚ := 0
  tanAngleDown : ℚ := 0

/-- Everything the runtime feeds into one `BeginVRMode` call:
`xrWaitFrame`'s predicted display time and `xrLocateViews`' output. -/
structure FrameInput where
  predictedDisplayTime : ℤ := 0
  locatedViewCount : ℕ := 2
  views : Fin 2 → ViewInput := fun _ => {}

/-- The `BeginVRMode` from `realitylib_vr.c` (lines 1227–1302): returns
immediately when the session is not running; otherwise clears the command
buffer, stores the predicted display time, and rebuilds the per-eye
projection/view matrices and raw eye positions from the located views. -/
def BeginVRMode (s : VRState) (frame : FrameInput) : VRState :=
  if !s.sessionRunning then s
  else
    let s1 := { s with
      drawCommands := ClearDrawCommands
      predictedDisplayTime := frame.predictedDisplayTime }
    let n := min frame.locatedViewCount 2
    let s2 :=
      if 0 < n then
        let v := frame.views 0
        { s1 with headset := { s1.headset with
            leftEyeProjection :=
              CreateProjectionMatrix v.tanAngleLeft v.tanAngleRight v.tanAngleUp
                v.tanAngleDown (1/100) 100
            leftEyeView := CreateViewMatrix s1.playerCosYaw s1.playerSinYaw s1.playerPosition v.pose
            leftEyePosition := v.pose.position } }
      else s1
    let s3 :=
      if 1 < n then
        let v := frame.views 1
        { s2 with headset := { s2.headset with
            rightEyeProjection :=
              CreateProjectionMatrix v.tanAngleLeft v.tanAngleRight v.tanAngleUp
                v.tanAngleDown (1/100) 100
            rightEyeView := CreateViewMatrix s2.playerCosYaw s2.playerSinYaw s2.playerPosition v.pose
            rightEyePosition := v.pose.position } }
      else s2
    { s3 with headset := { s3.headset with
        displayWidth := s3.viewConfigWidth 0
        displayHeight := s3.viewConfigHeight 0 } }

/-- A GL draw issued during replay: the call to `DrawCubeInternal` or
`DrawLineInternal` with the world-space parameters taken from the command
and the ambient view/projection matrices of the eye being rendered. -/
inductive GLDraw where
  | drawCubeInternal (position size color : Vector3 ℚ) (view proj : Matrix)
  | drawLineInternal (startPos endPos color : Vector3 ℚ) (view proj : Matrix)
  deriving DecidableEq, Repr

/-- The replay loop of `RenderEye` (realitylib_vr.c lines 1639–1649):
walks the recorded commands in order and issues each one's internal draw
with the current eye's matrices.  It reads the command buffer only. -/
def RenderEye (view proj : Matrix) (cmds : List DrawCommand) : List GLDraw :=
  cmds.map fun cmd =>
    match cmd.type with
    | .CMD_DRAW_CUBE => .drawCubeInternal cmd.position cmd.size cmd.color view proj
    | .CMD_DRAW_LINE => .drawLineInternal cmd.position cmd.size cmd.color view proj

/-- The `(i == 0) ? leftEyeView : rightEyeView` (realitylib_vr.c line 1328). -/
def eyeViewMatrix (s : VRState) (i : ℕ) : Matrix :=
  if i = 0 then s.headset.leftEyeView else s.headset.rightEyeView

/-- The `(i == 0) ? leftEyeProjection : rightEyeProjection` (line 1329). -/
def eyeProjMatrix (s : VRState) (i : ℕ) : Matrix :=
  if i = 0 then s.headset.leftEyeProjection else s.headset.rightEyeProjection

/-- The `EndVRMode` from `realitylib_vr.c` (lines 1304–1378): returns
immediately when the session is not running; otherwise, for each eye in
order, selects that eye's matrices into the current-state fields and
replays the command buffer, accumulating the issued GL draws.  (Swapchain
acquire/release and the final `xrEndFrame` submit have no effect on the
modelled state.) -/
def EndVRMode (s : VRState) : List GLDraw × VRState :=
  if !s.sessionRunning then ([], s)
  else
    (List.range s.viewCount).foldl
      (fun acc i =>
        let st := { acc.2 with
          currentEye := (i : ℤ)
          currentViewMatrix := eyeViewMatrix acc.2 i
          currentProjectionMatrix := eyeProjMatrix acc.2 i }
        (acc.1 ++ RenderEye st.currentViewMatrix st.currentProjectionMatrix st.drawCommands, st))
      ([], s)

/-! ## Drawing primitives (realitylib_vr.c lines 1716–1799) -/

/-- The inline `color.r / 255.0f` conversion used by the drawing calls. -/
def colorToVector3 (c : Color) : Vector3 ℚ :=
  ⟨(c.r : ℚ) / 255, (c.g : ℚ) / 255, (c.b : ℚ) / 255⟩

/-- The `DrawVRCuboid` from `realitylib_vr.c` (lines 1716–1727). -/
def DrawVRCuboid (s : VRState) (position size color : Vector3 ℚ) : VRState :=
  if !s.sessionRunning then s
  else
    let cmd : DrawCommand :=
      { type := .CMD_DRAW_CUBE, position := position, size := size, color := color }
    { s with drawCommands := AddDrawCommand s.drawCommands cmd }

/-- The `DrawVRCube` from `realitylib_vr.c` (lines 1729–1732). -/
def DrawVRCube (s : VRState) (position : Vector3 ℚ) (size : ℚ) (color : Color) : VRState :=
  DrawVRCuboid s position ⟨size, size, size⟩ (colorToVector3 color)

/-- The `DrawVRLine3D` from `realitylib_vr.c` (lines 1767–1779): start in
`position`, end repurposed into `size`. -/
def DrawVRLine3D (s : VRState) (startPos endPos : Vector3 ℚ) (color : Color) : VRState :=
  if !s.sessionRunning then s
  else
    let cmd : DrawCommand :=
      { type := .CMD_DRAW_LINE, position := startPos, size := endPos,
        color := colorToVector3 color }
    { s with drawCommands := AddDrawCommand s.drawCommands cmd }

/-- The `DrawVRPlane` from `realitylib_vr.c` (lines 1787–1790). -/
def DrawVRPlane (s : VRState) (centerPos size : Vector3 ℚ) (color : Color) : VRState :=
  DrawVRCuboid s centerPos ⟨size.x, 1/100, size.z⟩ (colorToVector3 color)

/-- The `DrawVRAxes` from `realitylib_vr.c` (lines 1792–1799). -/
def DrawVRAxes (s : VRState) (position : Vector3 ℚ) (scale : ℚ) : VRState :=
  let s1 := DrawVRLine3D s position (Vector3Add position ⟨scale, 0, 0⟩) RED
  let s2 := DrawVRLine3D s1 position (Vector3Add position ⟨0, scale, 0⟩) GREEN
  DrawVRLine3D s2 position (Vector3Add position ⟨0, 0, scale⟩) BLUE

/-- The loop body of `DrawVRGrid`: one X-parallel and one Z-parallel grey
line for grid index `i`. -/
def gridLineStep (half spacing : ℚ) (st : VRState) (i : ℤ) : VRState :=
  let pos : ℚ := (i : ℚ) * spacing
  let st1 := DrawVRLine3D st ⟨-half, 0, pos⟩ ⟨half, 0, pos⟩ GRAY
  DrawVRLine3D st1 ⟨pos, 0, -half⟩ ⟨pos, 0, half⟩ GRAY

/-- The inclusive integer range `lo, lo+1, …, hi` traversed by the C
`for (int i = lo; i <= hi; i++)` loop (empty when `hi < lo`). -/
def intRangeIncl (lo hi : ℤ) : List ℤ :=
  (List.range (hi + 1 - lo).toNat).map fun k : ℕ => lo + (k : ℤ)

/-- The `DrawVRGrid` from `realitylib_vr.c` (lines 1739–1765): iterates
`i = -slices/2 … slices/2` with C truncating division (`Int.tdiv`),
appending two line commands per index. -/
def DrawVRGrid (s : VRState) (slices : ℤ) (spacing : ℚ) : VRState :=
  if !s.sessionRunning then s
  else
    let half : ℚ := ((slices : ℚ) * spacing) / 2
    (intRangeIncl ((-slices).tdiv 2) (slices.tdiv 2)).foldl (gridLineStep half spacing) s

/-! ## Initialization and teardown (realitylib_vr.c lines 420–949, 1163–1205)

The EGL/OpenXR handles created during start-up are modelled as abstract
resources on a list of live resources, in creation order.  Each runtime
call that can fail is given a success flag in `InitEnv`; a failing call
creates nothing.  `eglTerminate` (in `ShutdownEGL`) releases every EGL
resource; `xrDestroyInstance` (in `ShutdownOpenXR`) destroys the instance
and, per the OpenXR specification, every child handle created from it
(session, spaces, action set, swapchains). -/

/-- The runtime handles created during `InitApp`. -/
inductive Resource where
  | eglDisplayRes
  | eglContextRes
  | eglSurfaceRes
  | xrInstanceRes
  | xrSessionRes
  | stageSpaceRes
  | headSpaceRes
  | actionSetRes
  | leftHandSpaceRes
  | rightHandSpaceRes
  | swapchainRes0
  | swapchainRes1
  deriving DecidableEq, Repr

/-- Is the resource an EGL-side object (released by `ShutdownEGL`)? -/
def Resource.isEGL : Resource → Bool
  | .eglDisplayRes | .eglContextRes | .eglSurfaceRes => true
  | _ => false

/-- Is the resource an OpenXR handle (the instance or one of its child
handles, all destroyed by `xrDestroyInstance` in `ShutdownOpenXR`)? -/
def Resource.isXR : Resource → Bool
  | .xrInstanceRes | .xrSessionRes | .stageSpaceRes | .headSpaceRes
  | .actionSetRes | .leftHandSpaceRes | .rightHandSpaceRes
  | .swapchainRes0 | .swapchainRes1 => true
  | _ => false

/-- Success/failure of each fallible runtime call made during start-up
(the unchecked calls have no flag).  The collapsed flags
`createActionsOk` (the nine `xrCreateAction` calls) and
`createActionSpacesOk` (the two `xrCreateActionSpace` calls) model their
first call failing. -/
structure InitEnv where
  eglGetDisplayOk : Bool := true
  eglInitializeOk : Bool := true
  eglChooseConfigOk : Bool := true
  eglCreateContextOk : Bool := true
  eglCreateSurfaceOk : Bool := true
  eglMakeCurrentOk : Bool := true
  xrCreateInstanceOk : Bool := true
  xrGetSystemOk : Bool := true
  stereoSupported : Bool := true
  xrCreateSessionOk : Bool := true
  stageSpaceOk : Bool := true
  headSpaceOk : Bool := true
  createActionSetOk : Bool := true
  createActionsOk : Bool := true
  createActionSpacesOk : Bool := true
  attachActionSetsOk : Bool := true
  swapchain0Ok : Bool := true
  swapchain1Ok : Bool := true
  deriving DecidableEq, Repr

/-- The `InitializeEGL` from `realitylib_vr.c` (lines 420–478): display,
context, pbuffer surface (unchecked), make-current.  No failure branch
releases anything. -/
def InitializeEGL (env : InitEnv) : Bool × List Resource :=
  if !env.eglGetDisplayOk then (false, [])
  else if !env.eglInitializeOk then (false, [])
  else
    let live := [Resource.eglDisplayRes]
    if !env.eglChooseConfigOk then (false, live)
    else if !env.eglCreateContextOk then (false, live)
    else
      let live := live ++ [Resource.eglContextRes]
      let live := if env.eglCreateSurfaceOk then live ++ [Resource.eglSurfaceRes] else live
      if !env.eglMakeCurrentOk then (false, live) else (true, live)

/-- The `InitializeOpenXR` from `realitylib_vr.c` (lines 500–606): loader,
instance, system, stereo view-configuration check.  No failure branch
destroys the instance. -/
def InitializeOpenXR (env : InitEnv) : Bool × List Resource :=
  if !env.xrCreateInstanceOk then (false, [])
  else
    let live := [Resource.xrInstanceRes]
    if !env.xrGetSystemOk then (false, live)
    else if !env.stereoSupported then (false, live)
    else (true, live)

/-- The `CreateActions` from `realitylib_vr.c` (lines 790–949): action set,
actions, per-hand action spaces, suggested bindings (unchecked), attach. -/
def CreateActions (env : InitEnv) : Bool × List Resource :=
  if !env.createActionSetOk then (false, [])
  else
    let live := [Resource.actionSetRes]
    if !env.createActionsOk then (false, live)
    else if !env.createActionSpacesOk then (false, live)
    else
      let live := live ++ [Resource.leftHandSpaceRes, Resource.rightHandSpaceRes]
      if !env.attachActionSetsOk then (false, live) else (true, live)

/-- The `CreateSwapchains` from `realitylib_vr.c` (lines 716–763): one
swapchain per eye, in order. -/
def CreateSwapchains (env : InitEnv) : Bool × List Resource :=
  if !env.swapchain0Ok then (false, [])
  else if !env.swapchain1Ok then (false, [Resource.swapchainRes0])
  else (true, [Resource.swapchainRes0, Resource.swapchainRes1])

/-- The `CreateSession` from `realitylib_vr.c` (lines 619–681): session,
stage and head reference spaces, then `CreateActions` and
`CreateSwapchains`.  Failure branches return without destroying what the
function already created. -/
def CreateSession (env : InitEnv) : Bool × List Resource :=
  if !env.xrCreateSessionOk then (false, [])
  else
    let live := [Resource.xrSessionRes]
    if !env.stageSpaceOk then (false, live)
    else
      let live := live ++ [Resource.stageSpaceRes]
      if !env.headSpaceOk then (false, live)
      else
        let live := live ++ [Resource.headSpaceRes]
        let acts := CreateActions env
        let live := live ++ acts.2
        if !acts.1 then (false, live)
        else
          let scs := CreateSwapchains env
          let live := live ++ scs.2
          if !scs.1 then (false, live) else (true, live)

/-- The `ShutdownEGL` from `realitylib_vr.c` (lines 480–494): releases every
EGL resource. -/
def ShutdownEGL (live : List Resource) : List Resource :=
  live.filter fun r => !r.isEGL

/-- The `ShutdownOpenXR` from `realitylib_vr.c` (lines 608–613):
`xrDestroyInstance`, which destroys the instance and all child handles. -/
def ShutdownOpenXR (live : List Resource) : List Resource :=
  live.filter fun r => !r.isXR

/-- The `InitApp` from `realitylib_vr.c` (lines 1163–1194): EGL, then OpenXR
(on failure: `ShutdownEGL` only), then session creation (on failure:
`ShutdownOpenXR` then `ShutdownEGL`).  The result is the success flag and
the list of runtime handles still live afterwards. -/
def InitApp (env : InitEnv) : Bool × List Resource :=
  let egl := InitializeEGL env
  if !egl.1 then (false, egl.2)
  else
    let oxr := InitializeOpenXR env
    if !oxr.1 then (false, ShutdownEGL (egl.2 ++ oxr.2))
    else
      let sess := CreateSession env
      if !sess.1 then (false, ShutdownEGL (ShutdownOpenXR (egl.2 ++ oxr.2 ++ sess.2)))
      else (true, egl.2 ++ oxr.2 ++ sess.2)

/-! ## Hand tracking and gesture derivation (hand-tracking module)

Joint positions live in `ℝ` because the gesture code takes square roots
(`sqrtf`); `Vector3Len` is idealised as `Real.sqrt`.  The C `bool`
gesture outputs are modelled as `Prop` fields assigned the compared
predicate itself; the `bool` inputs (`isValid`, `isTracking`) stay
`Bool`. -/

/-- The `HandJoint` from `realitylib_hands.h` (the 26 XR_EXT_hand_tracking
joints). -/
inductive HandJoint where
  | HAND_JOINT_PALM
  | HAND_JOINT_WRIST
  | HAND_JOINT_THUMB_METACARPAL
  | HAND_JOINT_THUMB_PROXIMAL
  | HAND_JOINT_THUMB_DISTAL
  | HAND_JOINT_THUMB_TIP
  | HAND_JOINT_INDEX_METACARPAL
  | HAND_JOINT_INDEX_PROXIMAL
  | HAND_JOINT_INDEX_INTERMEDIATE
  | HAND_JOINT_INDEX_DISTAL
  | HAND_JOINT_INDEX_TIP
  | HAND_JOINT_MIDDLE_METACARPAL
  | HAND_JOINT_MIDDLE_PROXIMAL
  | HAND_JOINT_MIDDLE_INTERMEDIATE
  | HAND_JOINT_MIDDLE_DISTAL
  | HAND_JOINT_MIDDLE_TIP
  | HAND_JOINT_RING_METACARPAL
  | HAND_JOINT_RING_PROXIMAL
  | HAND_JOINT_RING_INTERMEDIATE
  | HAND_JOINT_RING_DISTAL
  | HAND_JOINT_RING_TIP
  | HAND_JOINT_LITTLE_METACARPAL
  | HAND_JOINT_LITTLE_PROXIMAL
  | HAND_JOINT_LITTLE_INTERMEDIATE
  | HAND_JOINT_LITTLE_DISTAL
  | HAND_JOINT_LITTLE_TIP
  deriving DecidableEq, Repr

/-- The `VRHandJoint` from `realitylib_hands.h`. -/
structure VRHandJoint where
  position : Vector3 ℝ
  orientation : Quaternion ℝ
  radius : ℝ
  isValid : Bool

/-- The `VRHand` from `realitylib_hands.h`; the joint array becomes a
function on `HandJoint`. -/
structure VRHand where
  joints : HandJoint → VRHandJoint
  palmPosition : Vector3 ℝ
  palmOrientation : Quaternion ℝ
  palmNormal : Vector3 ℝ
  palmDirection : Vector3 ℝ
  isTracking : Bool
  isActive : Bool
  isPinching : Prop
  pinchStrength : ℝ
  isFist : Prop
  isPointing : Prop
  isOpen : Prop

/-- The `Vector3Sub` from the hand-tracking module. -/
def Vector3Sub (a b : Vector3 ℝ) : Vector3 ℝ :=
  ⟨a.x - b.x, a.y - b.y, a.z - b.z⟩

/-- The `Vector3Len` from the hand-tracking module
(`sqrtf(v.x*v.x + v.y*v.y + v.z*v.z)`, idealised over `ℝ`). -/
noncomputable def Vector3Len (v : Vector3 ℝ) : ℝ :=
  Real.sqrt (v.x * v.x + v.y * v.y + v.z * v.z)

/-- The `DetectGestures` from the hand-tracking module (lines 530–632 of the
implementation file): pinch strength/flag, fist, pointing, open hand and
the palm convenience fields, each gated on the validity flags the C code
actually checks.  (Note: the pointing branch checks only palm, index-tip
and middle-tip validity, yet uses the ring-tip and little-tip positions.) -/
noncomputable def DetectGestures (hand : VRHand) : VRHand :=
  if !hand.isTracking then
    { hand with
      isPinching := False
      pinchStrength := 0
      isFist := False
      isPointing := False
      isOpen := False }
  else
    let thumbTip := hand.joints .HAND_JOINT_THUMB_TIP
    let indexTip := hand.joints .HAND_JOINT_INDEX_TIP
    let middleTip := hand.joints .HAND_JOINT_MIDDLE_TIP
    let ringTip := hand.joints .HAND_JOINT_RING_TIP
    let littleTip := hand.joints .HAND_JOINT_LITTLE_TIP
    let palm := hand.joints .HAND_JOINT_PALM
    let h1 :=
      if thumbTip.isValid && indexTip.isValid then
        let pinchDist := Vector3Len (Vector3Sub thumbTip.position indexTip.position)
        let PINCH_CLOSE : ℝ := 0.02
        let PINCH_OPEN : ℝ := 0.08
        let strength := 1 - ((pinchDist - PINCH_CLOSE) / (PINCH_OPEN - PINCH_CLOSE))
        let strengthClamped := max 0 (min 1 strength)
        { hand with
          pinchStrength := strengthClamped
          isPinching := strengthClamped > 0.8 }
      else
        { hand with isPinching := False, pinchStrength := 0 }
    let h2 :=
      if palm.isValid && indexTip.isValid && middleTip.isValid &&
          ringTip.isValid && littleTip.isValid then
        let indexDist := Vector3Len (Vector3Sub indexTip.position palm.position)
        let middleDist := Vector3Len (Vector3Sub middleTip.position palm.position)
        let ringDist := Vector3Len (Vector3Sub ringTip.position palm.position)
        let littleDist := Vector3Len (Vector3Sub littleTip.position palm.position)
        let FIST_THRESHOLD : ℝ := 0.05
        { h1 with isFist :=
            indexDist < FIST_THRESHOLD ∧ middleDist < FIST_THRESHOLD ∧
            ringDist < FIST_THRESHOLD ∧ littleDist < FIST_THRESHOLD }
      else
        { h1 with isFist := False }
    let h3 :=
      if palm.isValid && indexTip.isValid && middleTip.isValid then
        let indexDist := Vector3Len (Vector3Sub indexTip.position palm.position)
        let middleDist := Vector3Len (Vector3Sub middleTip.position palm.position)
        let ringDist := Vector3Len (Vector3Sub ringTip.position palm.position)
        let littleDist := Vector3Len (Vector3Sub littleTip.position palm.position)
        let EXTENDED_THRESHOLD : ℝ := 0.10
        let CURLED_THRESHOLD : ℝ := 0.06
        { h2 with isPointing :=
            indexDist > EXTENDED_THRESHOLD ∧ middleDist < CURLED_THRESHOLD ∧
            ringDist < CURLED_THRESHOLD }
      else
        { h2 with isPointing := False }
    let h4 :=
      if palm.isValid && indexTip.isValid && middleTip.isValid &&
          ringTip.isValid && littleTip.isValid then
        let indexDist := Vector3Len (Vector3Sub indexTip.position palm.position)
        let middleDist := Vector3Len (Vector3Sub middleTip.position palm.position)
        let ringDist := Vector3Len (Vector3Sub ringTip.position palm.position)
        let littleDist := Vector3Len (Vector3Sub littleTip.position palm.position)
        let EXTENDED_THRESHOLD : ℝ := 0.08
        { h3 with isOpen :=
            indexDist > EXTENDED_THRESHOLD ∧ middleDist > EXTENDED_THRESHOLD ∧
            ringDist > EXTENDED_THRESHOLD ∧ littleDist > EXTENDED_THRESHOLD }
      else
        { h3 with isOpen := False }
    if palm.isValid then
      let q := palm.orientation
      { h4 with
        palmPosition := palm.position
        palmOrientation := palm.orientation
        palmNormal :=
          ⟨2 * (q.x * q.y - q.w * q.z), 1 - 2 * (q.x * q.x + q.z * q.z),
           2 * (q.y * q.z + q.w * q.x)⟩
        palmDirection :=
          ⟨2 * (q.x * q.z + q.w * q.y), 2 * (q.y * q.z - q.w * q.x),
           1 - 2 * (q.x * q.x + q.y * q.y)⟩ }
    else h4

/-! ## Concrete states and inputs used by witnesses and counterexamples -/

/-- The zero-initialised state (`static VRState vrState = {0}`): session
not running. -/
def idleState : VRState := {}

/-- A state in mid-session: session running, stereo view count, empty
command buffer. -/
def runningEmptyState : VRState := { sessionRunning := true, viewCount := 2 }

/-- A concrete cube command. -/
def cubeCommandEx : DrawCommand :=
  { type := .CMD_DRAW_CUBE, position := ⟨1, 2, 3⟩, size := ⟨1, 1, 1⟩, color := ⟨1, 0, 0⟩ }

/-- A concrete line command. -/
def lineCommandEx : DrawCommand :=
  { type := .CMD_DRAW_LINE, position := ⟨0, 0, 0⟩, size := ⟨0, 1, 0⟩, color := ⟨0, 1, 0⟩ }

/-- A running state with two recorded commands and distinct per-eye
matrices. -/
def replayState : VRState :=
  { sessionRunning := true
    viewCount := 2
    drawCommands := [cubeCommandEx, lineCommandEx]
    headset := { leftEyeView := MatrixIdentity, rightEyeView := MatrixZero
                 leftEyeProjection := MatrixIdentity, rightEyeProjection := MatrixZero } }

/-- An environment in which every runtime call succeeds except the stereo
view-configuration check in `InitializeOpenXR`. -/
def envStereoFail : InitEnv := { stereoSupported := false }

/-! ## C1 — view-matrix composition -/

/-- C1, counterexample: with player offset position (10,0,0) and yaw 90°
(cos 0, sin 1) and the raw headset pose at the stage origin with identity
orientation and position (0,0,-1), the claimed world-space eye position
(10,0,-1) is *not* carried to the eye-space origin by the view matrix the
code builds — so (10,0,-1) is not the eye position. -/
theorem createViewMatrix_claimed_eye_point_wrong :
    applyToPoint
      (CreateViewMatrix 0 1 ⟨10, 0, 0⟩ ⟨⟨0, 0, 0, 1⟩, ⟨0, 0, -1⟩⟩) ⟨10, 0, -1⟩ ≠ ⟨0, 0, 0⟩ := by
  simp [applyToPoint, CreateViewMatrix, RotateByPlayerYaw, MatrixMultiply, QuaternionToMatrix,
    CreateRotationY, MatrixIdentity, Vector3.ext_iff]

/-- C1, amended: `CreateViewMatrix` composes rotate-then-translate — for
every yaw (cosine `c`, sine `s`), player position and raw pose, the world
point obtained by rotating the raw headset position by the player yaw and
then adding the player position is carried to the eye-space origin; and
for the claim's concrete input (player (10,0,0), yaw 90°, raw offset
(0,0,-1)) the world-space eye position is exactly (11,0,0). -/
theorem createViewMatrix_rotate_then_translate :
    (∀ (c s : ℚ) (playerPos : Vector3 ℚ) (pose : Posef),
      applyToPoint (CreateViewMatrix c s playerPos pose)
        (Vector3Add (RotateByPlayerYaw c s pose.position) playerPos) = ⟨0, 0, 0⟩) ∧
    (∀ X : Vector3 ℚ,
      applyToPoint
        (CreateViewMatrix 0 1 ⟨10, 0, 0⟩ ⟨⟨0, 0, 0, 1⟩, ⟨0, 0, -1⟩⟩) X = ⟨0, 0, 0⟩ ↔
      X = ⟨11, 0, 0⟩) := by
  constructor
  · intro c s playerPos pose
    simp only [applyToPoint, CreateViewMatrix, RotateByPlayerYaw, MatrixMultiply,
      QuaternionToMatrix, CreateRotationY, MatrixIdentity, Vector3Add, Vector3.ext_iff]
    refine ⟨by ring, by ring, by ring⟩
  · intro X
    obtain ⟨x, y, z⟩ := X
    simp only [applyToPoint, CreateViewMatrix, RotateByPlayerYaw, MatrixMultiply,
      QuaternionToMatrix, CreateRotationY, MatrixIdentity, Vector3.ext_iff]
    norm_num
    constructor
    · rintro ⟨h1, h2, h3⟩
      refine ⟨by linarith, by linarith, by linarith⟩
    · rintro ⟨h1, h2, h3⟩
      refine ⟨by linarith, by linarith, by linarith⟩

/-- C1, witness: the amended theorem applied at the concrete claim input,
the point (11,0,0). -/
theorem createViewMatrix_rotate_then_translate_witness :
    applyToPoint
      (CreateViewMatrix 0 1 ⟨10, 0, 0⟩ ⟨⟨0, 0, 0, 1⟩, ⟨0, 0, -1⟩⟩) ⟨11, 0, 0⟩ = ⟨0, 0, 0⟩ :=
  (createViewMatrix_rotate_then_translate.2 ⟨11, 0, 0⟩).mpr rfl

/-! ## C6 — draw-command buffer capacity -/

/-- Folding `AddDrawCommand` keeps a prefix semantics: from any in-bounds
buffer, appending a sequence stores exactly the sequence's prefix that
fits. -/
theorem foldl_addDrawCommand (seq : List DrawCommand) :
    ∀ buf : List DrawCommand, buf.length ≤ MAX_DRAW_COMMANDS →
      seq.foldl AddDrawCommand buf = buf ++ seq.take (MAX_DRAW_COMMANDS - buf.length) := by
  induction seq with
  | nil => intro buf _; simp
  | cons c cs ih =>
    intro buf hbuf
    by_cases h : buf.length < MAX_DRAW_COMMANDS
    · have hstep : AddDrawCommand buf c = buf ++ [c] := by simp [AddDrawCommand, h]
      have hlen : (buf ++ [c]).length ≤ MAX_DRAW_COMMANDS := by
        simp only [List.length_append, List.length_singleton]
        omega
      have hrw : MAX_DRAW_COMMANDS - buf.length =
          (MAX_DRAW_COMMANDS - (buf ++ [c]).length) + 1 := by
        simp only [List.length_append, List.length_singleton]
        omega
      calc (c :: cs).foldl AddDrawCommand buf
          = cs.foldl AddDrawCommand (buf ++ [c]) := by rw [List.foldl_cons, hstep]
        _ = (buf ++ [c]) ++ cs.take (MAX_DRAW_COMMANDS - (buf ++ [c]).length) := ih _ hlen
        _ = buf ++ (c :: cs).take (MAX_DRAW_COMMANDS - buf.length) := by
            rw [hrw, List.take_succ_cons, List.append_assoc]
            rfl
    · have heq : buf.length = MAX_DRAW_COMMANDS := by omega
      have hstep : AddDrawCommand buf c = buf := by simp [AddDrawCommand, h]
      have hz : MAX_DRAW_COMMANDS - buf.length = 0 := by omega
      calc (c :: cs).foldl AddDrawCommand buf
          = cs.foldl AddDrawCommand buf := by rw [List.foldl_cons, hstep]
        _ = buf ++ cs.take (MAX_DRAW_COMMANDS - buf.length) := ih _ hbuf
        _ = buf ++ (c :: cs).take (MAX_DRAW_COMMANDS - buf.length) := by rw [hz]; rfl

/-- C6: recording any sequence of commands into the cleared buffer keeps
the count within [0, 4096], silently drops everything beyond capacity,
and preserves the first 4096 recorded commands unchanged. -/
theorem addDrawCommand_capacity (seq : List DrawCommand) :
    (seq.foldl AddDrawCommand ClearDrawCommands).length ≤ MAX_DRAW_COMMANDS ∧
    seq.foldl AddDrawCommand ClearDrawCommands = seq.take MAX_DRAW_COMMANDS := by
  have h := foldl_addDrawCommand seq [] (by simp)
  simp only [ClearDrawCommands] at *
  rw [h]
  simp only [List.nil_append, Nat.sub_zero]
  constructor
  · exact List.length_take_le MAX_DRAW_COMMANDS seq
  · rfl

/-! ## C7 — no-op frames when the session is not running -/

/-- C7: with the session not running, `BeginVRMode` and `EndVRMode`
return before touching anything and every drawing call appends nothing:
all of them leave the state (command list included) unchanged, and
`EndVRMode` issues no GL draws. -/
theorem session_not_running_noops (s : VRState) (frame : FrameInput)
    (p q c3 : Vector3 ℚ) (sz : ℚ) (col : Color) (n : ℤ) (sp : ℚ)
    (h : s.sessionRunning = false) :
    BeginVRMode s frame = s ∧
    EndVRMode s = ([], s) ∧
    DrawVRCuboid s p q c3 = s ∧
    DrawVRCube s p sz col = s ∧
    DrawVRLine3D s p q col = s ∧
    DrawVRGrid s n sp = s ∧
    DrawVRPlane s p q col = s ∧
    DrawVRAxes s p sz = s := by
  refine ⟨?_, ?_, ?_, ?_, ?_, ?_, ?_, ?_⟩
  · simp [BeginVRMode, h]
  · simp [EndVRMode, h]
  · simp [DrawVRCuboid, h]
  · simp [DrawVRCube, DrawVRCuboid, h]
  · simp [DrawVRLine3D, h]
  · simp [DrawVRGrid, h]
  · simp [DrawVRPlane, DrawVRCuboid, h]
  · simp [DrawVRAxes, DrawVRLine3D, h]

/-- C7, witness: the no-op theorem at the zero-initialised state. -/
theorem session_not_running_noops_witness :
    BeginVRMode idleState {} = idleState ∧
    EndVRMode idleState = ([], idleState) ∧
    DrawVRCuboid idleState ⟨0, 0, 0⟩ ⟨1, 1, 1⟩ ⟨1, 1, 1⟩ = idleState ∧
    DrawVRCube idleState ⟨0, 0, 0⟩ 1 RED = idleState ∧
    DrawVRLine3D idleState ⟨0, 0, 0⟩ ⟨1, 1, 1⟩ RED = idleState ∧
    DrawVRGrid idleState 10 1 = idleState ∧
    DrawVRPlane idleState ⟨0, 0, 0⟩ ⟨1, 1, 1⟩ RED = idleState ∧
    DrawVRAxes idleState ⟨0, 0, 0⟩ 1 = idleState :=
  session_not_running_noops idleState {} ⟨0, 0, 0⟩ ⟨1, 1, 1⟩ ⟨1, 1, 1⟩ 1 RED 10 1 rfl

/-! ## C2 — replay is read-only and identical for both eyes -/

/-- The world-space content of an issued GL draw: which primitive, and its
three world-space vector parameters (everything except the per-eye
matrices). -/
def worldParams : GLDraw → DrawCommandType × Vector3 ℚ × Vector3 ℚ × Vector3 ℚ
  | .drawCubeInternal p sz c _ _ => (.CMD_DRAW_CUBE, p, sz, c)
  | .drawLineInternal a b c _ _ => (.CMD_DRAW_LINE, a, b, c)

/-- The recorded content of a draw command. -/
def commandParams (cmd : DrawCommand) : DrawCommandType × Vector3 ℚ × Vector3 ℚ × Vector3 ℚ :=
  (cmd.type, cmd.position, cmd.size, cmd.color)

/-- Replay reproduces the recorded commands one-to-one, in order, with
the recorded world-space parameters, for any eye matrices. -/
theorem renderEye_worldParams (view proj : Matrix) (cmds : List DrawCommand) :
    (RenderEye view proj cmds).map worldParams = cmds.map commandParams := by
  induction cmds with
  | nil => rfl
  | cons cmd tl ih =>
    cases h : cmd.type <;>
      simp [RenderEye, worldParams, commandParams, h] at ih ⊢ <;>
      exact ih

/-- C2: when the session is running with the stereo view count, EndVRMode
replays the same unmutated command list once per eye — the command buffer
is unchanged afterwards, the issued draws are exactly the eye-0 replay
followed by the eye-1 replay of the *same* recorded list (differing only
in the view/projection matrices supplied), and each replay preserves the
recorded order and world-space parameters. -/
theorem endVRMode_replays_both_eyes (s : VRState)
    (hrun : s.sessionRunning = true) (hviews : s.viewCount = 2) :
    (EndVRMode s).2.drawCommands = s.drawCommands ∧
    (EndVRMode s).1 =
      RenderEye s.headset.leftEyeView s.headset.leftEyeProjection s.drawCommands ++
      RenderEye s.headset.rightEyeView s.headset.rightEyeProjection s.drawCommands ∧
    (∀ view proj : Matrix,
      (RenderEye view proj s.drawCommands).map worldParams =
        s.drawCommands.map commandParams) := by
  refine ⟨?_, ?_, fun view proj => renderEye_worldParams view proj s.drawCommands⟩ <;>
    simp [EndVRMode, hrun, hviews, eyeViewMatrix, eyeProjMatrix, List.range_succ]

/-- C2, witness: the replay theorem at a concrete running state holding a
cube and a line command with distinct per-eye matrices. -/
theorem endVRMode_replays_both_eyes_witness :
    (EndVRMode replayState).2.drawCommands = replayState.drawCommands ∧
    (EndVRMode replayState).1 =
      RenderEye replayState.headset.leftEyeView replayState.headset.leftEyeProjection
        replayState.drawCommands ++
      RenderEye replayState.headset.rightEyeView replayState.headset.rightEyeProjection
        replayState.drawCommands ∧
    (∀ view proj : Matrix,
      (RenderEye view proj replayState.drawCommands).map worldParams =
        replayState.drawCommands.map commandParams) :=
  endVRMode_replays_both_eyes replayState rfl rfl

/-! ## C3 — stale controller pose retention -/

/-- The result of `updateController` under a location whose position-valid flag is set:
tracking turns on and the pose is taken from the location. -/
theorem updateController_position_valid (prev : VRController) (loc : SpaceLocation)
    (vel : SpaceVelocity) (act : ActionSample)
    (h : loc.locationFlags &&& XR_SPACE_LOCATION_POSITION_VALID_BIT ≠ 0) :
    (updateController prev loc vel act).isTracking = true ∧
    (updateController prev loc vel act).position = loc.pose.position ∧
    (updateController prev loc vel act).orientation = loc.pose.orientation := by
  simp only [updateController, h, if_true]
  split <;> split <;> simp

/-- The result of `updateController` under a location whose position-valid flag is
clear: tracking turns off and the previous pose is retained. -/
theorem updateController_position_invalid (prev : VRController) (loc : SpaceLocation)
    (vel : SpaceVelocity) (act : ActionSample)
    (h : loc.locationFlags &&& XR_SPACE_LOCATION_POSITION_VALID_BIT = 0) :
    (updateController prev loc vel act).isTracking = false ∧
    (updateController prev loc vel act).position = prev.position ∧
    (updateController prev loc vel act).orientation = prev.orientation := by
  simp only [updateController, h, ne_eq, not_true_eq_false, if_false]
  split <;> split <;> simp

/-- The function `UpdateInput` never changes whether the session is running. -/
theorem updateInput_sessionRunning (s : VRState) (input : InputFrame) :
    (UpdateInput s input).sessionRunning = s.sessionRunning := by
  simp only [UpdateInput]
  split <;> rfl

/-- With the session running, a controller's tracking state and pose
after `UpdateInput` are those computed by `updateController` (the
menu-button write on hand 0 touches no other field). -/
theorem updateInput_controller_fields (s : VRState) (input : InputFrame) (i : Fin 2)
    (hrun : s.sessionRunning = true) :
    ((UpdateInput s input).controllers i).isTracking =
      (updateController (s.controllers i) (input.locations i) (input.velocities i)
        (input.actions i)).isTracking ∧
    ((UpdateInput s input).controllers i).position =
      (updateController (s.controllers i) (input.locations i) (input.velocities i)
        (input.actions i)).position ∧
    ((UpdateInput s input).controllers i).orientation =
      (updateController (s.controllers i) (input.locations i) (input.velocities i)
        (input.actions i)).orientation := by
  by_cases hi : i = 0 <;> simp [UpdateInput, hrun, hi]

/-- C3: once a sync has reported a controller tracked with some pose, a
subsequent sync whose space locate lacks the position-valid flag reports
`isTracking = false` while the previously reported position and
orientation are retained, not zeroed. -/
theorem controller_tracking_loss_retains_pose (s : VRState) (in1 in2 : InputFrame) (i : Fin 2)
    (hrun : s.sessionRunning = true)
    (h1 : (in1.locations i).locationFlags &&& XR_SPACE_LOCATION_POSITION_VALID_BIT ≠ 0)
    (h2 : (in2.locations i).locationFlags &&& XR_SPACE_LOCATION_POSITION_VALID_BIT = 0) :
    ((UpdateInput s in1).controllers i).isTracking = true ∧
    ((UpdateInput s in1).controllers i).position = (in1.locations i).pose.position ∧
    ((UpdateInput s in1).controllers i).orientation = (in1.locations i).pose.orientation ∧
    ((UpdateInput (UpdateInput s in1) in2).controllers i).isTracking = false ∧
    ((UpdateInput (UpdateInput s in1) in2).controllers i).position =
      (in1.locations i).pose.position ∧
    ((UpdateInput (UpdateInput s in1) in2).controllers i).orientation =
      (in1.locations i).pose.orientation := by
  have hrun2 : (UpdateInput s in1).sessionRunning = true := by
    rw [updateInput_sessionRunning]; exact hrun
  obtain ⟨tA, pA, oA⟩ := updateInput_controller_fields s in1 i hrun
  obtain ⟨tB, pB, oB⟩ := updateInput_controller_fields (UpdateInput s in1) in2 i hrun2
  obtain ⟨t1, p1, o1⟩ :=
    updateController_position_valid (s.controllers i) (in1.locations i) (in1.velocities i)
      (in1.actions i) h1
  obtain ⟨t2, p2, o2⟩ :=
    updateController_position_invalid ((UpdateInput s in1).controllers i) (in2.locations i)
      (in2.velocities i) (in2.actions i) h2
  exact ⟨by rw [tA, t1], by rw [pA, p1], by rw [oA, o1],
    by rw [tB, t2], by rw [pB, p2, pA, p1], by rw [oB, o2, oA, o1]⟩

/-- A locate sample with the position-valid flag set and a nonzero pose. -/
def trackedLocation : SpaceLocation :=
  ⟨XR_SPACE_LOCATION_POSITION_VALID_BIT, ⟨⟨0, 0, 0, 1⟩, ⟨1, 2, 3⟩⟩⟩

/-- A locate sample with no validity flags. -/
def lostLocation : SpaceLocation := ⟨0, ⟨⟨0, 0, 0, 1⟩, ⟨0, 0, 0⟩⟩⟩

/-- An input frame that tracks both controllers at (1,2,3). -/
def inputTracked : InputFrame := { locations := fun _ => trackedLocation }

/-- An input frame that fails to locate either controller. -/
def inputLost : InputFrame := { locations := fun _ => lostLocation }

/-- C3, witness: the retention theorem at a concrete running state, hand
0, one successful sync then one failed sync. -/
theorem controller_tracking_loss_retains_pose_witness :
    ((UpdateInput runningEmptyState inputTracked).controllers 0).isTracking = true ∧
    ((UpdateInput runningEmptyState inputTracked).controllers 0).position =
      (inputTracked.locations 0).pose.position ∧
    ((UpdateInput runningEmptyState inputTracked).controllers 0).orientation =
      (inputTracked.locations 0).pose.orientation ∧
    ((UpdateInput (UpdateInput runningEmptyState inputTracked) inputLost).controllers 0).isTracking
      = false ∧
    ((UpdateInput (UpdateInput runningEmptyState inputTracked) inputLost).controllers 0).position =
      (inputTracked.locations 0).pose.position ∧
    ((UpdateInput (UpdateInput runningEmptyState inputTracked) inputLost).controllers
      0).orientation = (inputTracked.locations 0).pose.orientation :=
  controller_tracking_loss_retains_pose runningEmptyState inputTracked inputLost 0 rfl
    (by decide) (by decide)

/-! ## C8 — AppShouldClose is an event pump, not a pure query -/

/-- The exit flag is never cleared by event handling. -/
theorem handleEvent_shouldExit_mono (s : VRState) (e : XrEventData)
    (h : s.shouldExit = true) : (handleEvent s e).shouldExit = true := by
  cases e with
  | sessionStateChanged st => cases st <;> simp [handleEvent, h]
  | instanceLossPending => simp [handleEvent]
  | otherEvent => simp [handleEvent, h]

/-- The exit flag survives draining any event list. -/
theorem pollXREvents_shouldExit_mono (events : List XrEventData) :
    ∀ s : VRState, s.shouldExit = true → (PollXREvents s events).shouldExit = true := by
  induction events with
  | nil => intro s h; exact h
  | cons e tl ih =>
    intro s h
    exact ih (handleEvent s e) (handleEvent_shouldExit_mono s e h)

/-- A terminal event sets the exit flag. -/
theorem handleEvent_terminal (s : VRState) (e : XrEventData)
    (h : isTerminalEvent e = true) : (handleEvent s e).shouldExit = true := by
  cases e with
  | sessionStateChanged st => cases st <;> simp_all [isTerminalEvent, handleEvent]
  | instanceLossPending => simp [handleEvent]
  | otherEvent => simp [isTerminalEvent] at h

/-- Draining a list that contains a terminal event leaves the exit flag
set. -/
theorem pollXREvents_terminal (events : List XrEventData) :
    ∀ s : VRState, (∃ e ∈ events, isTerminalEvent e = true) →
      (PollXREvents s events).shouldExit = true := by
  induction events with
  | nil => intro s h; simp at h
  | cons e tl ih =>
    intro s h
    rcases h with ⟨e0, he0, ht⟩
    rcases List.mem_cons.mp he0 with rfl | hmem
    · exact pollXREvents_shouldExit_mono tl (handleEvent s e0) (handleEvent_terminal s e0 ht)
    · exact ih (handleEvent s e) ⟨e0, hmem, ht⟩

/-- C8, counterexample: a call to `AppShouldClose` on the
zero-initialised state with a pending session-exiting event changes the
observable state (the exit flag flips), so the function is not a pure,
state-preserving query. -/
theorem appShouldClose_changes_state :
    (AppShouldClose idleState false
      [XrEventData.sessionStateChanged .XR_SESSION_STATE_EXITING]).2 ≠ idleState := by
  intro h
  have hflag := congrArg VRState.shouldExit h
  simp [AppShouldClose, PollXREvents, handleEvent, idleState] at hflag

/-- C8, amended: `AppShouldClose` is an event pump that returns the exit
flag of the state it produces; the flag is latched (once set it stays
set and the call returns true), a platform destroy request or a pending
terminal event makes it return true, and a second consecutive call with
no new pending events returns the same value and leaves the state
identical. -/
theorem appShouldClose_event_pump (s : VRState) (destroyRequested : Bool)
    (events : List XrEventData) :
    (AppShouldClose s destroyRequested events).1 =
      (AppShouldClose s destroyRequested events).2.shouldExit ∧
    (s.shouldExit = true → (AppShouldClose s destroyRequested events).1 = true) ∧
    (destroyRequested = true → (AppShouldClose s destroyRequested events).1 = true) ∧
    ((∃ e ∈ events, isTerminalEvent e = true) →
      (AppShouldClose s destroyRequested events).1 = true) ∧
    AppShouldClose (AppShouldClose s destroyRequested events).2 false [] =
      ((AppShouldClose s destroyRequested events).1,
       (AppShouldClose s destroyRequested events).2) := by
  refine ⟨rfl, ?_, ?_, ?_, rfl⟩
  · intro h
    apply pollXREvents_shouldExit_mono
    by_cases hd : destroyRequested = true <;> simp [hd, h]
  · intro hd
    apply pollXREvents_shouldExit_mono
    simp [hd]
  · intro hterm
    exact pollXREvents_terminal events _ hterm

/-- C8, witness: the amended theorem at the zero-initialised state with a
platform destroy request. -/
theorem appShouldClose_event_pump_witness :
    (AppShouldClose idleState true []).1 = true :=
  (appShouldClose_event_pump idleState true []).2.2.1 rfl

/-! ## C9 — partial initialization can leak runtime handles -/

/-- Every modelled resource is either an EGL resource or an OpenXR
handle. -/
theorem resource_egl_or_xr (r : Resource) : r.isEGL = true ∨ r.isXR = true := by
  cases r <;> simp [Resource.isEGL, Resource.isXR]

/-- Nothing survives `ShutdownEGL`'s filter among EGL resources. -/
theorem mem_shutdownEGL (r : Resource) (l : List Resource) (h : r ∈ ShutdownEGL l) :
    r.isEGL = false := by
  have := List.of_mem_filter h
  simpa using this

/-- The `ShutdownOpenXR` followed by `ShutdownEGL` releases everything. -/
theorem shutdownEGL_shutdownOpenXR_nil (l : List Resource) :
    ShutdownEGL (ShutdownOpenXR l) = [] := by
  rw [ShutdownEGL, List.filter_eq_nil]
  intro r hr
  have hx := List.of_mem_filter hr
  rcases resource_egl_or_xr r with h | h
  · simp [h]
  · simp [h] at hx

/-- C9, counterexample: in an environment where every runtime call
succeeds except the stereo view-configuration check, `InitApp` fails and
returns with the OpenXR instance handle still live — the failure did not
unwind the resources of the failing step. -/
theorem initApp_stereo_failure_leaks_instance :
    (InitApp envStereoFail).1 = false ∧
    (InitApp envStereoFail).2 = [Resource.xrInstanceRes] := by
  constructor <;> rfl

/-- C9, amended: on failure `InitApp` returns false and tears down the
previously *completed* phases in reverse order — an OpenXR-phase failure
leaves no EGL resource and a session-phase failure leaves nothing — but
resources created inside the failing phase itself are not unwound: the
instance stays live when the system/stereo lookup fails inside
`InitializeOpenXR`, and the initialised EGL display stays live when
`eglChooseConfig` fails inside `InitializeEGL`. -/
theorem initApp_partial_teardown (env : InitEnv) :
    ((InitializeEGL env).1 = true → (InitializeOpenXR env).1 = false →
      (InitApp env).1 = false ∧ ∀ r ∈ (InitApp env).2, r.isEGL = false) ∧
    ((InitializeEGL env).1 = true → (InitializeOpenXR env).1 = true →
      (CreateSession env).1 = false →
      (InitApp env).1 = false ∧ (InitApp env).2 = []) ∧
    ((InitializeEGL env).1 = true → env.xrCreateInstanceOk = true →
      (env.xrGetSystemOk = false ∨ env.stereoSupported = false) →
      (InitApp env).1 = false ∧ Resource.xrInstanceRes ∈ (InitApp env).2) ∧
    (env.eglGetDisplayOk = true → env.eglInitializeOk = true →
      env.eglChooseConfigOk = false →
      (InitApp env).1 = false ∧ Resource.eglDisplayRes ∈ (InitApp env).2) := by
  refine ⟨?_, ?_, ?_, ?_⟩
  · intro hegl hxr
    simp only [InitApp, hegl, hxr, Bool.not_true, Bool.not_false, if_false, if_true]
    exact ⟨by trivial, fun r hr => mem_shutdownEGL r _ hr⟩
  · intro hegl hxr hsess
    simp only [InitApp, hegl, hxr, hsess, Bool.not_true, Bool.not_false, if_false, if_true]
    exact ⟨by trivial, shutdownEGL_shutdownOpenXR_nil _⟩
  · intro hegl hinst hfail
    have hxr : InitializeOpenXR env = (false, [Resource.xrInstanceRes]) := by
      rcases hfail with h | h <;> simp [InitializeOpenXR, hinst, h]
    simp only [InitApp, hegl, hxr, Bool.not_true, Bool.not_false, if_false, if_true]
    refine ⟨by trivial, ?_⟩
    apply List.mem_filter.mpr
    constructor
    · exact List.mem_append.mpr (Or.inr (List.mem_singleton.mpr rfl))
    · simp [Resource.isEGL]
  · intro hdisp hinit hchoose
    have hegl : InitializeEGL env = (false, [Resource.eglDisplayRes]) := by
      simp [InitializeEGL, hdisp, hinit, hchoose]
    simp only [InitApp, hegl, Bool.not_true, Bool.not_false, if_false, if_true]
    exact ⟨by trivial, List.mem_singleton.mpr rfl⟩

/-- C9, witness: the amended theorem at the stereo-failure environment —
initialization fails and the instance handle is still held. -/
theorem initApp_partial_teardown_witness :
    (InitApp envStereoFail).1 = false ∧
    Resource.xrInstanceRes ∈ (InitApp envStereoFail).2 :=
  (initApp_partial_teardown envStereoFail).2.2.1 rfl rfl (Or.inr rfl)

/-! ## C10 — grid line count -/

/-- With the session running and room in the buffer, one `DrawVRLine3D`
call appends exactly one command and keeps the session running. -/
theorem drawVRLine3D_running_len (s : VRState) (a b : Vector3 ℚ) (c : Color)
    (hrun : s.sessionRunning = true) (hlen : s.drawCommands.length < MAX_DRAW_COMMANDS) :
    (DrawVRLine3D s a b c).drawCommands.length = s.drawCommands.length + 1 ∧
    (DrawVRLine3D s a b c).sessionRunning = true := by
  simp [DrawVRLine3D, AddDrawCommand, hrun, hlen]

/-- The grid loop appends exactly two commands per traversed index, as
long as the buffer has room for all of them. -/
theorem foldl_gridLineStep (l : List ℤ) :
    ∀ (s : VRState) (half spacing : ℚ), s.sessionRunning = true →
      s.drawCommands.length + 2 * l.length ≤ MAX_DRAW_COMMANDS →
      ((l.foldl (gridLineStep half spacing) s).drawCommands.length =
        s.drawCommands.length + 2 * l.length ∧
       (l.foldl (gridLineStep half spacing) s).sessionRunning = true) := by
  induction l with
  | nil => intro s half spacing hrun _; exact ⟨by simp, hrun⟩
  | cons i tl ih =>
    intro s half spacing hrun hcap
    rw [List.length_cons] at hcap
    have hlen1 : s.drawCommands.length < MAX_DRAW_COMMANDS := by omega
    obtain ⟨len1, run1⟩ :=
      drawVRLine3D_running_len s ⟨-half, 0, (i : ℚ) * spacing⟩ ⟨half, 0, (i : ℚ) * spacing⟩
        GRAY hrun hlen1
    have hlen2 :
        (DrawVRLine3D s ⟨-half, 0, (i : ℚ) * spacing⟩ ⟨half, 0, (i : ℚ) * spacing⟩
          GRAY).drawCommands.length < MAX_DRAW_COMMANDS := by omega
    obtain ⟨len2, run2⟩ :=
      drawVRLine3D_running_len
        (DrawVRLine3D s ⟨-half, 0, (i : ℚ) * spacing⟩ ⟨half, 0, (i : ℚ) * spacing⟩ GRAY)
        ⟨(i : ℚ) * spacing, 0, -half⟩ ⟨(i : ℚ) * spacing, 0, half⟩ GRAY run1 hlen2
    have hfold : (i :: tl).foldl (gridLineStep half spacing) s =
        tl.foldl (gridLineStep half spacing)
          (DrawVRLine3D
            (DrawVRLine3D s ⟨-half, 0, (i : ℚ) * spacing⟩ ⟨half, 0, (i : ℚ) * spacing⟩ GRAY)
            ⟨(i : ℚ) * spacing, 0, -half⟩ ⟨(i : ℚ) * spacing, 0, half⟩ GRAY) := rfl
    obtain ⟨ihlen, ihrun⟩ :=
      ih (DrawVRLine3D
            (DrawVRLine3D s ⟨-half, 0, (i : ℚ) * spacing⟩ ⟨half, 0, (i : ℚ) * spacing⟩ GRAY)
            ⟨(i : ℚ) * spacing, 0, -half⟩ ⟨(i : ℚ) * spacing, 0, half⟩ GRAY)
        half spacing run2 (by omega)
    rw [hfold, ihlen]
    refine ⟨?_, ihrun⟩
    simp only [List.length_cons]
    omega

/-- Length of the traversed inclusive integer range. -/
theorem intRangeIncl_length (lo hi : ℤ) :
    (intRangeIncl lo hi).length = (hi + 1 - lo).toNat := by
  rw [intRangeIncl, List.length_map, List.length_range]

/-- C10, counterexample: for one slice (an odd count) the grid draws one
line pair, i.e. appends 2 commands, not 2·(1+1) = 4 as the claim states
for every slice count. -/
theorem drawVRGrid_one_slice_appends_two :
    ((DrawVRGrid runningEmptyState 1 1).drawCommands).length = 2 ∧ 2 ≠ 2 * (1 + 1) := by
  exact ⟨rfl, by decide⟩

/-- C10, amended: with the session running and enough remaining capacity,
`DrawVRGrid` with slice count `N ≥ 0` appends exactly `2·(2·⌊N/2⌋ + 1)`
line commands (the C loop runs `i = -N/2 … N/2` with truncating
division); for even `N` this equals the claimed `2·(N+1)`. -/
theorem drawVRGrid_appends_lines (s : VRState) (n : ℕ) (spacing : ℚ)
    (hrun : s.sessionRunning = true)
    (hcap : s.drawCommands.length + 2 * (2 * (n / 2) + 1) ≤ MAX_DRAW_COMMANDS) :
    ((DrawVRGrid s (n : ℤ) spacing).drawCommands).length =
      s.drawCommands.length + 2 * (2 * (n / 2) + 1) ∧
    (n % 2 = 0 → 2 * (2 * (n / 2) + 1) = 2 * (n + 1)) := by
  constructor
  · have htd : ((n : ℤ)).tdiv 2 = ((n / 2 : ℕ) : ℤ) := (Int.ofNat_tdiv n 2).symm
    have hntd : ((-(n : ℤ))).tdiv 2 = -((n / 2 : ℕ) : ℤ) := by
      rw [Int.neg_tdiv, htd]
    have hlen : (intRangeIncl ((-(n : ℤ)).tdiv 2) ((n : ℤ).tdiv 2)).length =
        2 * (n / 2) + 1 := by
      rw [hntd, htd, intRangeIncl_length]
      omega
    have hgrid : DrawVRGrid s (n : ℤ) spacing =
        (intRangeIncl ((-(n : ℤ)).tdiv 2) ((n : ℤ).tdiv 2)).foldl
          (gridLineStep ((((n : ℤ) : ℚ) * spacing) / 2) spacing) s := by
      simp [DrawVRGrid, hrun]
    obtain ⟨hl, _⟩ :=
      foldl_gridLineStep (intRangeIncl ((-(n : ℤ)).tdiv 2) ((n : ℤ).tdiv 2)) s
        ((((n : ℤ) : ℚ) * spacing) / 2) spacing hrun (by rw [hlen]; exact hcap)
    rw [hgrid, hl, hlen]
  · intro he
    omega

/-- C10, witness: the amended theorem at two slices (even) on a running
empty state — six commands, which is 2·(2+1). -/
theorem drawVRGrid_appends_lines_witness :
    ((DrawVRGrid runningEmptyState ((2 : ℕ) : ℤ) 1).drawCommands).length =
      runningEmptyState.drawCommands.length + 2 * (2 * ((2 : ℕ) / 2) + 1) ∧
    ((2 : ℕ) % 2 = 0 → 2 * (2 * ((2 : ℕ) / 2) + 1) = 2 * ((2 : ℕ) + 1)) :=
  drawVRGrid_appends_lines runningEmptyState 2 1 rfl (by decide)

/-! ## C4 / C5 — gesture thresholds and joint-validity gating -/

/-- The length of an axis-aligned vector with nonnegative component. -/
theorem vector3Len_axis (d : ℝ) (hd : 0 ≤ d) : Vector3Len ⟨d, 0, 0⟩ = d := by
  simp only [Vector3Len, mul_zero, add_zero]
  exact Real.sqrt_mul_self hd

/-- With a tracked hand and valid thumb/index tips, `DetectGestures`
stores the clamped pinch strength and sets `isPinching` to exactly
"strength > 0.8". -/
theorem detectGestures_pinch_fields (hand : VRHand)
    (ht : hand.isTracking = true)
    (hthumb : (hand.joints .HAND_JOINT_THUMB_TIP).isValid = true)
    (hindex : (hand.joints .HAND_JOINT_INDEX_TIP).isValid = true) :
    (DetectGestures hand).pinchStrength =
      max 0 (min 1 (1 - ((Vector3Len (Vector3Sub (hand.joints .HAND_JOINT_THUMB_TIP).position
        (hand.joints .HAND_JOINT_INDEX_TIP).position) - 0.02) / (0.08 - 0.02)))) ∧
    (DetectGestures hand).isPinching =
      ((DetectGestures hand).pinchStrength > 0.8) := by
  simp only [DetectGestures, ht, hthumb, hindex, Bool.not_true, Bool.false_eq_true, if_false,
    Bool.true_and, Bool.and_true, Bool.and_self, if_true]
  repeat' split
  all_goals exact ⟨rfl, rfl⟩

/-- With a tracked hand and valid palm, index-tip and middle-tip joints,
`isPointing` is exactly the threshold predicate over the index, middle
and ring distances — the ring-tip distance is used whether or not the
ring-tip joint is valid. -/
theorem detectGestures_isPointing_eq (hand : VRHand)
    (ht : hand.isTracking = true)
    (hpalm : (hand.joints .HAND_JOINT_PALM).isValid = true)
    (hindex : (hand.joints .HAND_JOINT_INDEX_TIP).isValid = true)
    (hmiddle : (hand.joints .HAND_JOINT_MIDDLE_TIP).isValid = true) :
    (DetectGestures hand).isPointing =
      (Vector3Len (Vector3Sub (hand.joints .HAND_JOINT_INDEX_TIP).position
        (hand.joints .HAND_JOINT_PALM).position) > 0.10 ∧
       Vector3Len (Vector3Sub (hand.joints .HAND_JOINT_MIDDLE_TIP).position
        (hand.joints .HAND_JOINT_PALM).position) < 0.06 ∧
       Vector3Len (Vector3Sub (hand.joints .HAND_JOINT_RING_TIP).position
        (hand.joints .HAND_JOINT_PALM).position) < 0.06) := by
  simp only [DetectGestures, ht, hpalm, hindex, hmiddle, Bool.not_true, Bool.false_eq_true,
    if_false, Bool.true_and, Bool.and_true, Bool.and_self, if_true]
  repeat' split
  all_goals rfl

/-- C4: for every tracked hand with valid thumb and index tips, writing
`d` for the thumb-tip-to-index-tip distance, the pinch strength equals
`clamp(1 - (d - 0.02)/(0.08 - 0.02), 0, 1)` and `isPinching` holds iff
the strength exceeds 0.8; in particular `d = 0.02` gives strength 1 and a
pinch, `d = 0.08` gives strength 0 and no pinch, and `d = 0.05` gives
strength 0.5 and no pinch. -/
theorem pinch_threshold_semantics (hand : VRHand) (d : ℝ)
    (ht : hand.isTracking = true)
    (hthumb : (hand.joints .HAND_JOINT_THUMB_TIP).isValid = true)
    (hindex : (hand.joints .HAND_JOINT_INDEX_TIP).isValid = true)
    (hd : Vector3Len (Vector3Sub (hand.joints .HAND_JOINT_THUMB_TIP).position
      (hand.joints .HAND_JOINT_INDEX_TIP).position) = d) :
    (DetectGestures hand).pinchStrength = max 0 (min 1 (1 - ((d - 0.02) / (0.08 - 0.02)))) ∧
    ((DetectGestures hand).isPinching ↔ (DetectGestures hand).pinchStrength > 0.8) ∧
    (d = 0.02 → (DetectGestures hand).pinchStrength = 1 ∧ (DetectGestures hand).isPinching) ∧
    (d = 0.08 → (DetectGestures hand).pinchStrength = 0 ∧ ¬(DetectGestures hand).isPinching) ∧
    (d = 0.05 →
      (DetectGestures hand).pinchStrength = 0.5 ∧ ¬(DetectGestures hand).isPinching) := by
  obtain ⟨hstr, hpin⟩ := detectGestures_pinch_fields hand ht hthumb hindex
  rw [hd] at hstr
  have hiff : (DetectGestures hand).isPinching ↔ (DetectGestures hand).pinchStrength > 0.8 :=
    Iff.of_eq hpin
  refine ⟨hstr, hiff, ?_, ?_, ?_⟩
  · rintro rfl
    have h1 : (DetectGestures hand).pinchStrength = 1 := by
      rw [hstr]; norm_num
    exact ⟨h1, hiff.mpr (by rw [h1]; norm_num)⟩
  · rintro rfl
    have h0 : (DetectGestures hand).pinchStrength = 0 := by
      rw [hstr]; norm_num
    refine ⟨h0, fun hp => ?_⟩
    have := hiff.mp hp
    rw [h0] at this
    norm_num at this
  · rintro rfl
    have hhalf : (DetectGestures hand).pinchStrength = 0.5 := by
      rw [hstr]; norm_num [min_def, max_def]
    refine ⟨hhalf, fun hp => ?_⟩
    have := hiff.mp hp
    rw [hhalf] at this
    norm_num at this

/-- A joint at position `p` with identity orientation, zero radius and
the given validity flag. -/
noncomputable def mkJoint (p : Vector3 ℝ) (valid : Bool) : VRHandJoint :=
  ⟨p, ⟨0, 0, 0, 1⟩, 0, valid⟩

/-- A tracked hand whose thumb tip sits 2 cm from the index tip (both
valid). -/
noncomputable def pinchHand : VRHand where
  joints := fun j =>
    match j with
    | .HAND_JOINT_THUMB_TIP => mkJoint ⟨0.02, 0, 0⟩ true
    | .HAND_JOINT_INDEX_TIP => mkJoint ⟨0, 0, 0⟩ true
    | _ => mkJoint ⟨0, 0, 0⟩ false
  palmPosition := ⟨0, 0, 0⟩
  palmOrientation := ⟨0, 0, 0, 1⟩
  palmNormal := ⟨0, 0, 0⟩
  palmDirection := ⟨0, 0, 0⟩
  isTracking := true
  isActive := true
  isPinching := False
  pinchStrength := 0
  isFist := False
  isPointing := False
  isOpen := False

/-- C4, witness: the threshold theorem at `pinchHand`, whose thumb-index
distance is exactly 0.02 — full strength and a detected pinch. -/
theorem pinch_threshold_semantics_witness :
    (DetectGestures pinchHand).pinchStrength = 1 ∧ (DetectGestures pinchHand).isPinching := by
  have hsub : Vector3Sub (pinchHand.joints .HAND_JOINT_THUMB_TIP).position
      (pinchHand.joints .HAND_JOINT_INDEX_TIP).position = ⟨0.02, 0, 0⟩ := by
    simp [pinchHand, mkJoint, Vector3Sub]
  have hd : Vector3Len (Vector3Sub (pinchHand.joints .HAND_JOINT_THUMB_TIP).position
      (pinchHand.joints .HAND_JOINT_INDEX_TIP).position) = 0.02 := by
    rw [hsub]
    exact vector3Len_axis 0.02 (by norm_num)
  exact (pinch_threshold_semantics pinchHand 0.02 rfl rfl rfl hd).2.2.1 rfl

/-- A tracked hand with valid palm, index tip (12 cm from the palm,
extended) and middle tip (3 cm, curled), and an *invalid* ring tip whose
stale position lies 4 cm from the palm. -/
noncomputable def invalidRingHand : VRHand where
  joints := fun j =>
    match j with
    | .HAND_JOINT_PALM => mkJoint ⟨0, 0, 0⟩ true
    | .HAND_JOINT_INDEX_TIP => mkJoint ⟨0.12, 0, 0⟩ true
    | .HAND_JOINT_MIDDLE_TIP => mkJoint ⟨0.03, 0, 0⟩ true
    | .HAND_JOINT_RING_TIP => mkJoint ⟨0.04, 0, 0⟩ false
    | _ => mkJoint ⟨0, 0, 0⟩ false
  palmPosition := ⟨0, 0, 0⟩
  palmOrientation := ⟨0, 0, 0, 1⟩
  palmNormal := ⟨0, 0, 0⟩
  palmDirection := ⟨0, 0, 0⟩
  isTracking := true
  isActive := true
  isPinching := False
  pinchStrength := 0
  isFist := False
  isPointing := False
  isOpen := False

/-- C5: evaluating `DetectGestures` at the failing input — a tracked hand
whose ring-tip joint is invalid but whose stale ring-tip position happens
to lie within the curled threshold — yields `isPointing = true`, computed
from the invalid joint's data, contradicting the stated policy that a
gesture requiring an invalid joint evaluates to false. -/
theorem pointing_uses_invalid_ring_tip :
    (invalidRingHand.joints .HAND_JOINT_RING_TIP).isValid = false ∧
    (DetectGestures invalidRingHand).isPointing := by
  refine ⟨rfl, ?_⟩
  rw [detectGestures_isPointing_eq invalidRingHand rfl rfl rfl rfl]
  have hidx : Vector3Sub (invalidRingHand.joints .HAND_JOINT_INDEX_TIP).position
      (invalidRingHand.joints .HAND_JOINT_PALM).position = ⟨0.12, 0, 0⟩ := by
    simp [invalidRingHand, mkJoint, Vector3Sub]
  have hmid : Vector3Sub (invalidRingHand.joints .HAND_JOINT_MIDDLE_TIP).position
      (invalidRingHand.joints .HAND_JOINT_PALM).position = ⟨0.03, 0, 0⟩ := by
    simp [invalidRingHand, mkJoint, Vector3Sub]
  have hring : Vector3Sub (invalidRingHand.joints .HAND_JOINT_RING_TIP).position
      (invalidRingHand.joints .HAND_JOINT_PALM).position = ⟨0.04, 0, 0⟩ := by
    simp [invalidRingHand, mkJoint, Vector3Sub]
  rw [hidx, hmid, hring, vector3Len_axis 0.12 (by norm_num),
    vector3Len_axis 0.03 (by norm_num), vector3Len_axis 0.04 (by norm_num)]
  norm_num

end RealityLib
